import Mathlib

/-!
Verification development for the SJG-SOP retrieval-augmented chat assistant.

The definitions below are a shallow embedding of the TypeScript source:
  - `types.ts`            → `Sender`, `StructuredResponse`, `Message`, `ChatSession`
  - `MessageBubble.tsx`   → `renderContent` / `classify` (the Response Classifier)
  - `api/chat.ts`         → `fetchSopsFromSlite` (Document Retriever),
                            `toGeminiTurn` / `geminiContents` (Prompt Composer history
                            conversion), `handlerValidate` (endpoint input validation)
  - `api/generate-title.ts` → `generateTitlePayload`
  - `App.tsx`             → `handleSendMessage` (Session Orchestrator turn),
                            `handleDeleteChat`

Stateful React code is embedded as explicit state passing over `AppState`;
network calls become oracle parameters describing each call's outcome, so one
turn is a pure function of the initial state and the outcomes of its calls.
JavaScript truthiness on optional fields is modelled by the `truthy*` helpers.
-/

set_option maxHeartbeats 1000000
set_option maxRecDepth 10000

namespace SJGSOP

/-- Sender enum from types.ts. -/
inductive Sender where
  | user
  | assistant
deriving DecidableEq, Repr

/-- StructuredResponse interface from types.ts: every field is optional.
The two debug fields are declared in types.ts but unused by the components. -/
structure StructuredResponse where
  summary : Option String := none
  steps : Option (List String) := none
  notes : Option (List String) := none
  sources : Option (List String) := none
  clarification : Option String := none
  isNotFound : Option Bool := none
  isOutOfScope : Option Bool := none
  debug_sliteQuery : Option String := none
  debug_sliteDocsFound : Option Nat := none
deriving DecidableEq, Repr

/-- Message content union `string | StructuredResponse` from types.ts,
modelled as a tagged variant. -/
inductive Content where
  | text (s : String)
  | structured (r : StructuredResponse)
deriving DecidableEq, Repr

/-- Message interface from types.ts. -/
structure Message where
  id : String
  sender : Sender
  content : Content
deriving DecidableEq, Repr

/-- ChatSession interface from types.ts. -/
structure ChatSession where
  id : String
  title : String
  messages : List Message
deriving DecidableEq, Repr

/-- JavaScript truthiness of an optional boolean field (`undefined` is falsy). -/
def truthyFlag : Option Bool → Bool
  | none => false
  | some b => b

/-- JavaScript truthiness of an optional string field (`undefined` and the
empty string are falsy). -/
def truthyText : Option String → Bool
  | none => false
  | some s => !s.isEmpty

/-- Presence-and-nonemptiness test used for optional array fields
(`response.steps && response.steps.length > 0` in MessageBubble.tsx). -/
def truthyList : Option (List String) → Bool
  | none => false
  | some l => !l.isEmpty

/-- The four semantic outcomes the Response Classifier can assign. -/
inductive Outcome where
  | NOT_FOUND
  | OUT_OF_SCOPE
  | CLARIFICATION
  | ANSWER
deriving DecidableEq, Repr

/-- The outcome assigned by the if-chain in `renderContent`
(MessageBubble.tsx lines 36-59): isNotFound, then isOutOfScope, then
clarification, else the answer branch. -/
def classify (r : StructuredResponse) : Outcome :=
  if truthyFlag r.isNotFound then Outcome.NOT_FOUND
  else if truthyFlag r.isOutOfScope then Outcome.OUT_OF_SCOPE
  else if truthyText r.clarification then Outcome.CLARIFICATION
  else Outcome.ANSWER

/-- One rendered fragment of a message bubble. -/
inductive RenderPiece where
  | textP (s : String)
  | stepsBlock (l : List String)
  | notesBlock (l : List String)
  | sourcesBlock (l : List String)
  | notFoundAffordance
  | outOfScopeNotice
deriving DecidableEq, Repr

/-- The ANSWER branch of `renderContent` (MessageBubble.tsx lines 60-88):
each field is rendered exactly when it is present and non-empty. -/
def renderAnswerBlocks (r : StructuredResponse) : List RenderPiece :=
  (if truthyText r.summary then [RenderPiece.textP (r.summary.getD "")] else [])
  ++ (if truthyList r.steps then [RenderPiece.stepsBlock (r.steps.getD [])] else [])
  ++ (if truthyList r.notes then [RenderPiece.notesBlock (r.notes.getD [])] else [])
  ++ (if truthyList r.sources then [RenderPiece.sourcesBlock (r.sources.getD [])] else [])

/-- Rendering of a StructuredResponse by `renderContent`
(MessageBubble.tsx lines 36-88), a total function. -/
def renderStructured (r : StructuredResponse) : List RenderPiece :=
  if truthyFlag r.isNotFound then [RenderPiece.notFoundAffordance]
  else if truthyFlag r.isOutOfScope then [RenderPiece.outOfScopeNotice]
  else if truthyText r.clarification then [RenderPiece.textP (r.clarification.getD "")]
  else renderAnswerBlocks r

/-- Rendering of arbitrary message content by `renderContent`
(MessageBubble.tsx lines 29-89): plain strings render as a paragraph. -/
def renderContent : Content → List RenderPiece
  | Content.text s => [RenderPiece.textP s]
  | Content.structured r => renderStructured r

/-! App.tsx (Session Orchestrator). React state is the triple of hooks
`chatSessions`, `activeChatId`, `isLoading`. -/

/-- The three React state hooks of App.tsx as one state record. -/
structure AppState where
  chatSessions : List ChatSession
  activeChatId : Option String
  isLoading : Bool
deriving DecidableEq, Repr

/-- JavaScript truthiness check `!chatToUpdateId` on a nullable string:
null and the empty string are falsy. -/
def isFalsyId : Option String → Bool
  | none => true
  | some s => s.isEmpty

/-- Lookup `sessions.find(s => s.id === cid)` used throughout App.tsx:
the first session whose id equals `cid`, if any. -/
def findById : List ChatSession → String → Option ChatSession
  | [], _ => none
  | s :: rest, cid => if s.id == cid then some s else findById rest cid

/-- Functional session update `prev.map(s => s.id === cid ? f(s) : s)`,
the shape of every setChatSessions call in handleSendMessage. -/
def updateById (cid : String) (f : ChatSession → ChatSession)
    (sessions : List ChatSession) : List ChatSession :=
  sessions.map (fun s => if s.id == cid then f s else s)

/-- Splitting of a character list at every character satisfying `p`,
keeping empty chunks, as JavaScript String.prototype.split does for a
single-character separator (`acc` holds the current chunk reversed). -/
def splitChars (p : Char → Bool) : List Char → List Char → List String
  | [], acc => [String.mk acc.reverse]
  | x :: xs, acc =>
    if p x then String.mk acc.reverse :: splitChars p xs []
    else splitChars p xs (x :: acc)

/-- JavaScript `messageText.split(' ')`: split at each single space
character, keeping empty tokens between consecutive spaces. -/
def jsSplitOnSpace (s : String) : List String :=
  splitChars (fun c => c = ' ') s.toList []

/-- JavaScript String.prototype.trim: strip whitespace from both ends. -/
def jsTrim (s : String) : String :=
  String.mk (((s.toList.dropWhile Char.isWhitespace).reverse.dropWhile
    Char.isWhitespace).reverse)

/-- Fallback title from App.tsx line 74:
`messageText.split(' ').slice(0, 5).join(' ')` — split on single space
characters (consecutive spaces produce empty tokens), keep the first five
tokens, re-join with single spaces. -/
def fallbackTitleOf (messageText : String) : String :=
  String.intercalate " " ((jsSplitOnSpace messageText).take 5)

/-- Modelled from the claim's words for comparison with `fallbackTitleOf`:
the first five whitespace-separated words of the message text, joined by
single spaces. -/
def specFallbackTitle (messageText : String) : String :=
  String.intercalate " "
    (((splitChars (fun c => c.isWhitespace) messageText.toList []).filter
        (fun w => !w.isEmpty)).take 5)

/-- Lookup `chatSessions.find(s => s.id === activeChatId)` from App.tsx
line 65 (string comparison with null is always false). -/
def currentActiveSession (st : AppState) : Option ChatSession :=
  match st.activeChatId with
  | none => none
  | some cid => findById st.chatSessions cid

/-- Pre-update snapshot history from App.tsx lines 64-68: the active
session's messages with the new user message appended, or just the user
message when no active session is found. This is the request body of the
answer call (line 132) and therefore the history the server handler maps
into the Structured Generator's turn format. -/
def messagesForApi (st : AppState) (userMessage : Message) : List Message :=
  match currentActiveSession st with
  | some s => s.messages ++ [userMessage]
  | none => [userMessage]

/-- Part 1 of handleSendMessage (App.tsx lines 70-91), the synchronous UI
update that runs before any network call: either create, select and prepend
a new session holding exactly the user message, or append the user message
to the session with the captured id. Returns the new state, the captured
`chatToUpdateId` and the `isNewChat` flag. -/
def part1 (st : AppState) (userMessage : Message) (newChatId : String)
    (messageText : String) : AppState × String × Bool :=
  if isFalsyId st.activeChatId then
    let newChat : ChatSession :=
      { id := newChatId, title := fallbackTitleOf messageText,
        messages := [userMessage] }
    ({ chatSessions := newChat :: st.chatSessions,
       activeChatId := some newChatId,
       isLoading := st.isLoading }, newChatId, true)
  else
    let cid := st.activeChatId.getD ""
    ({ chatSessions :=
         updateById cid
           (fun s => { s with messages := s.messages ++ [userMessage] })
           st.chatSessions,
       activeChatId := st.activeChatId,
       isLoading := st.isLoading }, cid, false)

/-- The user Message constructed at the top of handleSendMessage
(App.tsx lines 55-59). -/
def userMessageOf (msgId messageText : String) : Message :=
  { id := msgId, sender := Sender.user, content := Content.text messageText }

/-- Outcome of the title-refinement request as observed by App.tsx lines
96-124: `success t` is a 2xx response whose JSON body held `title` when
`t = some title-string` (`none` covers a missing or non-string field);
`failure` covers a non-OK status, a transport error, or an unparseable
body — all of which land in the catch block. -/
inductive TitleOutcome where
  | success (t : Option String)
  | failure
deriving DecidableEq, Repr

/-- Outcome of the answer request as observed by App.tsx lines 126-173:
`ok r` is a 2xx response parsed as a StructuredResponse; `httpError` a
non-OK status (thrown at line 145); `thrown` a transport or parse error. -/
inductive ApiOutcome where
  | ok (r : StructuredResponse)
  | httpError
  | thrown
deriving DecidableEq, Repr

/-- Condition `data.title && typeof data.title === 'string' &&
data.title.trim() !== ''` from App.tsx line 116 (non-string modelled as
`none`). -/
def titleAccepted : Option String → Bool
  | none => false
  | some t => !t.isEmpty && !(jsTrim t).isEmpty

/-- The title-refinement step of handleSendMessage (App.tsx lines 96-124):
only runs for a new chat, and only a success carrying an accepted title
string overwrites the title of the session with the captured id; every
other outcome leaves the sessions untouched (the catch block only logs). -/
def titleStep (isNewChat : Bool) (cid : String) (titleOut : TitleOutcome)
    (sessions : List ChatSession) : List ChatSession :=
  if isNewChat then
    match titleOut with
    | TitleOutcome.success t =>
        if titleAccepted t then
          updateById cid (fun s => { s with title := t.getD "" }) sessions
        else sessions
    | TitleOutcome.failure => sessions
  else sessions

/-- The fixed apology response from App.tsx line 167. -/
def apologyResponse : StructuredResponse :=
  { summary := some "Sorry, I encountered an error. Please try again." }

/-- Synthetic assistant message appended when the answer request fails
(App.tsx lines 164-168). -/
def apologyMessage (asstId : String) : Message :=
  { id := asstId, sender := Sender.assistant,
    content := Content.structured apologyResponse }

/-- The answer step of handleSendMessage (App.tsx lines 126-173): on
success append the assistant message holding the StructuredResponse to the
session with the captured id; on a non-OK status or a thrown error append
the apology message instead. -/
def answerStep (cid asstId : String) (apiOut : ApiOutcome)
    (sessions : List ChatSession) : List ChatSession :=
  match apiOut with
  | ApiOutcome.ok r =>
      updateById cid
        (fun s => { s with messages := s.messages ++
            [{ id := asstId, sender := Sender.assistant,
               content := Content.structured r }] }) sessions
  | ApiOutcome.httpError =>
      updateById cid
        (fun s => { s with messages := s.messages ++ [apologyMessage asstId] })
        sessions
  | ApiOutcome.thrown =>
      updateById cid
        (fun s => { s with messages := s.messages ++ [apologyMessage asstId] })
        sessions

/-- One full turn of handleSendMessage (App.tsx lines 54-177) as a pure
function of the starting state and the outcomes of the two network calls:
part 1 synchronous update, busy flag set, best-effort title step (new chats
only), answer step, and the finally block clearing the busy flag. -/
def handleSendMessage (st : AppState) (messageText msgId newChatId asstId : String)
    (titleOut : TitleOutcome) (apiOut : ApiOutcome) : AppState :=
  let p := part1 st (userMessageOf msgId messageText) newChatId messageText
  let sessions2 := titleStep p.2.2 p.2.1 titleOut p.1.chatSessions
  let sessions3 := answerStep p.2.1 asstId apiOut sessions2
  { chatSessions := sessions3,
    activeChatId := p.1.activeChatId,
    isLoading := false }

/-- handleDeleteChat (App.tsx lines 46-52): filter the session out by id
and deselect it when it was the active session. -/
def handleDeleteChat (st : AppState) (chatId : String) : AppState :=
  { chatSessions := st.chatSessions.filter (fun s => s.id != chatId),
    activeChatId :=
      if st.activeChatId == some chatId then none else st.activeChatId,
    isLoading := st.isLoading }

/-! api/chat.ts (Document Retriever, Prompt Composer history conversion,
endpoint validation) and api/generate-title.ts. -/

/-- Result of one HTTP call: an OK response carrying a parsed body, or a
non-OK status. -/
inductive HttpResult (α : Type) where
  | ok (v : α)
  | notOk (status : Nat)
deriving DecidableEq, Repr

/-- Search hit shape from /v1/search-notes (chat.ts lines 13-16). -/
structure SliteNoteSearchResult where
  id : String
  title : String
deriving DecidableEq, Repr

/-- Note detail shape from /v1/notes/:id (chat.ts lines 19-23). -/
structure SliteNoteDetails where
  id : String
  title : String
  plaintext : String
deriving DecidableEq, Repr

/-- Formatted SOP handed to the model (chat.ts lines 74-77). -/
structure FormattedSop where
  title : String
  content : String
deriving DecidableEq, Repr

/-- Content truncation from chat.ts line 76:
`note.plaintext.substring(0, 1000) + (note.plaintext.length > 1000 ? '...' : '')`. -/
def truncate1000 (plaintext : String) : String :=
  String.mk (plaintext.toList.take 1000)
    ++ (if plaintext.toList.length > 1000 then "..." else "")

/-- Escaping of one character inside a JSON string literal, as
JSON.stringify performs it for the characters that occur here. -/
def jsonEscapeChar (c : Char) : String :=
  if c = '\\' then "\\\\"
  else if c = '\"' then "\\\""
  else if c = '\n' then "\\n"
  else if c = '\t' then "\\t"
  else if c = '\r' then "\\r"
  else String.singleton c

/-- JSON string escaping. -/
def jsonEscape (s : String) : String :=
  String.join (s.toList.map jsonEscapeChar)

/-- A JSON string literal. -/
def jsonStr (s : String) : String :=
  "\"" ++ jsonEscape s ++ "\""

/-- A JSON array of string literals (no extra whitespace, as produced by
JSON.stringify without an indent argument). -/
def jsonArrStr (l : List String) : String :=
  "[" ++ String.intercalate "," (l.map jsonStr) ++ "]"

/-- A JSON boolean literal. -/
def jsonBool (b : Bool) : String :=
  if b then "true" else "false"

/-- JSON.stringify(formattedSops, null, 2) from chat.ts line 81: an empty
array serializes to "[]"; a non-empty one is pretty-printed with a
two-space indent. -/
def jsonStringifySops (sops : List FormattedSop) : String :=
  match sops with
  | [] => "[]"
  | _ =>
    "[\n" ++ String.intercalate ",\n"
      (sops.map (fun s =>
        "  \x7b\n    " ++ jsonStr "title" ++ ": " ++ jsonStr s.title
          ++ ",\n    " ++ jsonStr "content" ++ ": " ++ jsonStr s.content
          ++ "\n  \x7d")) ++ "\n]"

/-- Formatting of one fetched note (chat.ts lines 74-77). -/
def formatNote (note : SliteNoteDetails) : FormattedSop :=
  { title := note.title, content := truncate1000 note.plaintext }

/-- Detail fetches retained by chat.ts lines 59-71: each hit's detail fetch
that returns non-OK yields null and is filtered out; OK fetches keep their
parsed body. -/
def retainedDetails (hits : List SliteNoteSearchResult)
    (detail : String → HttpResult SliteNoteDetails) : List SliteNoteDetails :=
  hits.filterMap (fun h =>
    match detail h.id with
    | HttpResult.ok d => some d
    | HttpResult.notOk _ => none)

/-- fetchSopsFromSlite (chat.ts lines 31-82) as a function of the outcomes
of its HTTP calls: `searchHttp` is the search call's outcome, whose OK body
carries `data` (`none` models a missing or non-array field); `detail` gives
each per-hit detail fetch's outcome keyed by note id. A non-OK search
throws (Except.error); no hits yields the string "[]"; otherwise failed
detail fetches are dropped and the retained notes are truncated, formatted
and JSON-serialized. -/
def fetchSopsFromSlite
    (searchHttp : HttpResult (Option (List SliteNoteSearchResult)))
    (detail : String → HttpResult SliteNoteDetails) : Except String String :=
  match searchHttp with
  | HttpResult.notOk _ => Except.error "Failed to search for notes on Slite API."
  | HttpResult.ok data =>
    match data with
    | none => Except.ok "[]"
    | some notesList =>
      if notesList.isEmpty then Except.ok "[]"
      else
        Except.ok (jsonStringifySops
          ((retainedDetails notesList detail).map formatNote))

/-- JSON.stringify of a StructuredResponse (chat.ts line 156): present
fields only, serialized in the declaration order of the response schema. -/
def stringifyStructured (r : StructuredResponse) : String :=
  let fs : List (Option String) :=
    [ r.summary.map (fun v => jsonStr "summary" ++ ":" ++ jsonStr v),
      r.steps.map (fun v => jsonStr "steps" ++ ":" ++ jsonArrStr v),
      r.notes.map (fun v => jsonStr "notes" ++ ":" ++ jsonArrStr v),
      r.sources.map (fun v => jsonStr "sources" ++ ":" ++ jsonArrStr v),
      r.clarification.map (fun v => jsonStr "clarification" ++ ":" ++ jsonStr v),
      r.isNotFound.map (fun v => jsonStr "isNotFound" ++ ":" ++ jsonBool v),
      r.isOutOfScope.map (fun v => jsonStr "isOutOfScope" ++ ":" ++ jsonBool v),
      r.debug_sliteQuery.map (fun v => jsonStr "debug_sliteQuery" ++ ":" ++ jsonStr v),
      r.debug_sliteDocsFound.map
        (fun v => jsonStr "debug_sliteDocsFound" ++ ":" ++ toString v) ]
  "\x7b" ++ String.intercalate "," (fs.filterMap id) ++ "\x7d"

/-- One turn in the model's conversation format (chat.ts lines 158-161). -/
structure GeminiTurn where
  role : String
  text : String
deriving DecidableEq, Repr

/-- Text of one turn (chat.ts lines 154-156): string content verbatim,
structured content via JSON.stringify. -/
def geminiTextOfContent : Content → String
  | Content.text s => s
  | Content.structured r => stringifyStructured r

/-- Modelled from the spec's words for comparison with
`geminiTextOfContent`: an assistant turn's text is the clarification text
if present, else a stable serialization of the full structured result. -/
def specTurnText : Content → String
  | Content.text s => s
  | Content.structured r =>
    match r.clarification with
    | some c => c
    | none => stringifyStructured r

/-- Conversion of one message (chat.ts lines 153-162): role 'user' for
USER senders, 'model' otherwise. -/
def toGeminiTurn (m : Message) : GeminiTurn :=
  { role := if m.sender = Sender.user then "user" else "model",
    text := geminiTextOfContent m.content }

/-- geminiContents (chat.ts line 153): the history mapped in order. -/
def geminiContents (messages : List Message) : List GeminiTurn :=
  messages.map toGeminiTurn

/-- What the chat handler does before its try block: an early HTTP response
(no external call has been made), or proceeding to the Slite search and
model call with the extracted user query. -/
inductive HandlerAction where
  | respond (status : Nat) (errMsg : String)
  | proceed (userQuery : String)
deriving DecidableEq, Repr

/-- The validation prefix of the chat handler (chat.ts lines 110-129):
non-POST → 405; missing/non-array/empty messages → 400 (`none` models a
missing or non-array field); a last message not from the user or with
non-string content → 400; missing API keys → 500. Only after all checks
pass does the handler proceed to the search, detail fetches and model
call. -/
def handlerValidate (method : String) (messages : Option (List Message))
    (keysConfigured : Bool) : HandlerAction :=
  if method ≠ "POST" then HandlerAction.respond 405 "Method Not Allowed"
  else
    match messages with
    | none =>
        HandlerAction.respond 400 "Messages are required and must be a non-empty array."
    | some msgs =>
      if msgs.isEmpty then
        HandlerAction.respond 400 "Messages are required and must be a non-empty array."
      else
        match msgs.getLast? with
        | none => HandlerAction.respond 400 "The last message must be from the user."
        | some last =>
          if last.sender ≠ Sender.user then
            HandlerAction.respond 400 "The last message must be from the user."
          else
            match last.content with
            | Content.structured _ =>
                HandlerAction.respond 400 "The last message must be from the user."
            | Content.text q =>
              if !keysConfigured then
                HandlerAction.respond 500 "API keys for Gemini and Slite are not configured."
              else HandlerAction.proceed q

/-- Title produced by a successful generate-title handler run
(generate-title.ts line 32): the model's text, or 'New Chat' when absent,
trimmed. -/
def generateTitlePayload (modelText : Option String) : String :=
  jsTrim (modelText.getD "New Chat")

/-! Helper lemmas about the session-list combinators. -/

theorem findById_updateById (cid qid : String) (f : ChatSession → ChatSession)
    (hf : ∀ s, (f s).id = s.id) (l : List ChatSession) :
    findById (updateById cid f l) qid =
      (findById l qid).map (fun s => if s.id == cid then f s else s) := by
  induction l with
  | nil => rfl
  | cons a t ih =>
    have hid : (if a.id == cid then f a else a).id = a.id := by
      by_cases h : a.id == cid <;> simp [h, hf a]
    simp only [updateById] at ih ⊢
    simp only [List.map_cons, findById]
    rw [hid]
    by_cases hq : (a.id == qid) = true
    · rw [if_pos hq, if_pos hq, Option.map_some']
    · rw [if_neg hq, if_neg hq]
      exact ih

theorem findById_some_id (cid : String) (s : ChatSession) :
    ∀ l : List ChatSession, findById l cid = some s → (s.id == cid) = true := by
  intro l
  induction l with
  | nil => intro h; cases h
  | cons a t ih =>
    intro h
    by_cases ha : (a.id == cid) = true
    · simp only [findById, ha, if_true, Option.some.injEq] at h
      rw [← h]; exact ha
    · simp only [findById, ha, if_false] at h
      exact ih h

theorem findById_updateById_self (cid : String) (f : ChatSession → ChatSession)
    (hf : ∀ s, (f s).id = s.id) (l : List ChatSession) :
    findById (updateById cid f l) cid = (findById l cid).map f := by
  rw [findById_updateById cid cid f hf l]
  cases hfind : findById l cid with
  | none => rfl
  | some s =>
    have hs : (s.id == cid) = true := findById_some_id cid s l hfind
    simp only [Option.map_some', hs, if_true]

/-- Relation stating that every session of `l` survives into `l'` with the
same id and its message sequence extended only at the end. -/
def MessagesExtended (l l' : List ChatSession) : Prop :=
  ∀ s ∈ l, ∃ s', s' ∈ l' ∧ s'.id = s.id ∧ s.messages <+: s'.messages

theorem messagesExtended_refl (l : List ChatSession) : MessagesExtended l l :=
  fun s hs => ⟨s, hs, rfl, List.prefix_refl _⟩

theorem messagesExtended_trans {l₁ l₂ l₃ : List ChatSession}
    (h₁ : MessagesExtended l₁ l₂) (h₂ : MessagesExtended l₂ l₃) :
    MessagesExtended l₁ l₃ := by
  intro s hs
  obtain ⟨s', hs', hid', hpre'⟩ := h₁ s hs
  obtain ⟨s'', hs'', hid'', hpre''⟩ := h₂ s' hs'
  exact ⟨s'', hs'', hid''.trans hid', hpre'.trans hpre''⟩

theorem messagesExtended_cons (c : ChatSession) (l : List ChatSession) :
    MessagesExtended l (c :: l) :=
  fun s hs => ⟨s, List.mem_cons_of_mem c hs, rfl, List.prefix_refl _⟩

theorem messagesExtended_updateById (cid : String) (f : ChatSession → ChatSession)
    (hf : ∀ s, (f s).id = s.id ∧ s.messages <+: (f s).messages)
    (l : List ChatSession) : MessagesExtended l (updateById cid f l) := by
  intro s hs
  refine ⟨if s.id == cid then f s else s, List.mem_map_of_mem _ hs, ?_, ?_⟩
  · by_cases h : s.id == cid <;> simp [h, (hf s).1]
  · by_cases h : s.id == cid <;> simp [h, (hf s).2]

theorem messagesExtended_titleStep (isNewChat : Bool) (cid : String)
    (titleOut : TitleOutcome) (l : List ChatSession) :
    MessagesExtended l (titleStep isNewChat cid titleOut l) := by
  unfold titleStep
  cases isNewChat with
  | false => exact messagesExtended_refl l
  | true =>
    cases titleOut with
    | failure => exact messagesExtended_refl l
    | success t =>
      by_cases h : titleAccepted t
      · simp only [h, if_true]
        exact messagesExtended_updateById cid
          (fun s => { s with title := t.getD "" })
          (fun s => ⟨rfl, List.prefix_refl _⟩) l
      · simp only [h, if_false]
        exact messagesExtended_refl l

theorem messagesExtended_answerStep (cid asstId : String) (apiOut : ApiOutcome)
    (l : List ChatSession) : MessagesExtended l (answerStep cid asstId apiOut l) := by
  cases apiOut with
  | ok r =>
    exact messagesExtended_updateById cid
      (fun s => { s with messages := s.messages ++
        [{ id := asstId, sender := Sender.assistant,
           content := Content.structured r }] })
      (fun s => ⟨rfl, List.prefix_append _ _⟩) l
  | httpError =>
    exact messagesExtended_updateById cid
      (fun s => { s with messages := s.messages ++ [apologyMessage asstId] })
      (fun s => ⟨rfl, List.prefix_append _ _⟩) l
  | thrown =>
    exact messagesExtended_updateById cid
      (fun s => { s with messages := s.messages ++ [apologyMessage asstId] })
      (fun s => ⟨rfl, List.prefix_append _ _⟩) l

theorem messagesExtended_part1 (st : AppState) (u : Message)
    (newChatId messageText : String) :
    MessagesExtended st.chatSessions (part1 st u newChatId messageText).1.chatSessions := by
  unfold part1
  by_cases h : isFalsyId st.activeChatId
  · simp only [h, if_true]
    exact messagesExtended_cons _ _
  · simp only [h, if_false]
    exact messagesExtended_updateById (st.activeChatId.getD "")
      (fun s => { s with messages := s.messages ++ [u] })
      (fun s => ⟨rfl, List.prefix_append _ _⟩) st.chatSessions

/-! Helper lemmas about JavaScript-style trimming. -/

theorem jsTrim_toList (s : String) :
    (jsTrim s).toList =
      List.rdropWhile Char.isWhitespace
        (s.toList.dropWhile Char.isWhitespace) := by
  simp [jsTrim, List.rdropWhile, String.toList]

theorem listTrim_idem (p : α → Bool) (l : List α) :
    List.rdropWhile p ((List.rdropWhile p (l.dropWhile p)).dropWhile p) =
      List.rdropWhile p (l.dropWhile p) := by
  have h1 : (List.rdropWhile p (l.dropWhile p)).dropWhile p =
      List.rdropWhile p (l.dropWhile p) := by
    cases hR : List.rdropWhile p (l.dropWhile p) with
    | nil => rfl
    | cons c rest =>
      obtain ⟨t, ht⟩ := List.rdropWhile_prefix (p := p) (l := l.dropWhile p)
      rw [hR] at ht
      have hne : l.dropWhile p ≠ [] := by
        rw [← ht]; exact List.cons_ne_nil _ _
      have hc : p ((l.dropWhile p).head hne) = false :=
        List.head_dropWhile_not p l hne
      have hhead : (l.dropWhile p).head hne = c := by
        have : (c :: (rest ++ t)).head (List.cons_ne_nil _ _) = c := rfl
        simp only [← ht, List.cons_append] at hne ⊢
        exact this
      rw [hhead] at hc
      simp [List.dropWhile_cons, hc]
  rw [h1, List.rdropWhile_idempotent]

theorem jsTrim_idem (s : String) : jsTrim (jsTrim s) = jsTrim s := by
  have key : (jsTrim (jsTrim s)).toList = (jsTrim s).toList := by
    rw [jsTrim_toList, jsTrim_toList]
    exact listTrim_idem Char.isWhitespace s.toList
  exact String.ext key

/-! Example values used by the witness theorems. -/

/-- A structured response with every field populated and isNotFound set. -/
def exAllPopulated : StructuredResponse :=
  { summary := some "S", steps := some ["step 1"], notes := some ["note 1"],
    sources := some ["Doc A"], clarification := some "Which one?",
    isNotFound := some true, isOutOfScope := some true }

/-- An existing user message. -/
def exUser0 : Message :=
  { id := "m1", sender := Sender.user, content := Content.text "hello" }

/-- A fresh user message for a new turn. -/
def exUser1 : Message :=
  { id := "m2", sender := Sender.user, content := Content.text "How do I handle a lead?" }

/-- An existing session holding one message. -/
def exSession : ChatSession :=
  { id := "chat-1", title := "hello", messages := [exUser0] }

/-- A state with one session selected. -/
def exState : AppState :=
  { chatSessions := [exSession], activeChatId := some "chat-1", isLoading := false }

/-- A state with no session selected. -/
def exEmptyState : AppState :=
  { chatSessions := [], activeChatId := none, isLoading := false }

/-- A search hit used in retriever witnesses. -/
def exHit : SliteNoteSearchResult := { id := "n1", title := "T1" }

/-- A user message whose text contains a double space, used to compare the
code's fallback title with the claim's wording. -/
def exUser2 : Message :=
  { id := "m3", sender := Sender.user, content := Content.text "a  b c d e f" }

/-! Further helper lemmas threading `findById` through the turn's steps. -/

theorem findById_titleStep_messages (isNewChat : Bool) (cid : String)
    (titleOut : TitleOutcome) (l : List ChatSession) (qid : String) :
    (findById (titleStep isNewChat cid titleOut l) qid).map ChatSession.messages =
      (findById l qid).map ChatSession.messages := by
  cases isNewChat with
  | false => rfl
  | true =>
    cases titleOut with
    | failure => rfl
    | success t =>
      by_cases h : titleAccepted t = true
      · have hstep : titleStep true cid (TitleOutcome.success t) l =
            updateById cid (fun s => { s with title := t.getD "" }) l := by
          simp [titleStep, h]
        rw [hstep, findById_updateById cid qid
          (fun s => { s with title := t.getD "" }) (fun s => rfl) l]
        cases findById l qid with
        | none => rfl
        | some s =>
          simp only [Option.map_some']
          split <;> rfl
      · have hstep : titleStep true cid (TitleOutcome.success t) l = l := by
          simp [titleStep, h]
        rw [hstep]

theorem findById_answerStep_messages_fail (cid asstId : String)
    (apiOut : ApiOutcome)
    (hfail : apiOut = ApiOutcome.httpError ∨ apiOut = ApiOutcome.thrown)
    (l : List ChatSession) :
    (findById (answerStep cid asstId apiOut l) cid).map ChatSession.messages =
      ((findById l cid).map ChatSession.messages).map
        (fun ms => ms ++ [apologyMessage asstId]) := by
  rcases hfail with h | h <;> subst h <;>
  · unfold answerStep
    rw [findById_updateById_self cid
      (fun s => { s with messages := s.messages ++ [apologyMessage asstId] })
      (fun s => rfl) l]
    cases findById l cid <;> rfl

/-- The assistant message the answer step appends for a given call
outcome: the structured result on success (App.tsx lines 150-154), the
apology message on failure (lines 164-168). -/
def answerMessageOf (apiOut : ApiOutcome) (asstId : String) : Message :=
  match apiOut with
  | ApiOutcome.ok r =>
      { id := asstId, sender := Sender.assistant, content := Content.structured r }
  | ApiOutcome.httpError => apologyMessage asstId
  | ApiOutcome.thrown => apologyMessage asstId

theorem answerStep_eq_updateById (cid asstId : String) (apiOut : ApiOutcome)
    (l : List ChatSession) :
    answerStep cid asstId apiOut l =
      updateById cid (fun s => { s with messages :=
        s.messages ++ [answerMessageOf apiOut asstId] }) l := by
  cases apiOut <;> rfl

theorem findById_answerStep_messages (cid asstId : String)
    (apiOut : ApiOutcome) (l : List ChatSession) :
    (findById (answerStep cid asstId apiOut l) cid).map ChatSession.messages =
      ((findById l cid).map ChatSession.messages).map
        (fun ms => ms ++ [answerMessageOf apiOut asstId]) := by
  rw [answerStep_eq_updateById, findById_updateById_self cid
    (fun s => { s with messages := s.messages ++ [answerMessageOf apiOut asstId] })
    (fun s => rfl) l]
  cases findById l cid <;> rfl

theorem findById_answerStep_title (cid asstId : String)
    (apiOut : ApiOutcome) (l : List ChatSession) :
    (findById (answerStep cid asstId apiOut l) cid).map ChatSession.title =
      (findById l cid).map ChatSession.title := by
  rw [answerStep_eq_updateById, findById_updateById_self cid
    (fun s => { s with messages := s.messages ++ [answerMessageOf apiOut asstId] })
    (fun s => rfl) l]
  cases findById l cid <;> rfl

theorem findById_titleStep_title_accepted (cid : String) (t : Option String)
    (l : List ChatSession) (h : titleAccepted t = true) :
    (findById (titleStep true cid (TitleOutcome.success t) l) cid).map
        ChatSession.title =
      ((findById l cid).map ChatSession.title).map (fun _ => t.getD "") := by
  have hstep : titleStep true cid (TitleOutcome.success t) l =
      updateById cid (fun s => { s with title := t.getD "" }) l := by
    simp [titleStep, h]
  rw [hstep, findById_updateById_self cid
    (fun s => { s with title := t.getD "" }) (fun s => rfl) l]
  cases findById l cid <;> rfl

theorem titleStep_no_update (cid : String) (titleOut : TitleOutcome)
    (l : List ChatSession)
    (h : titleOut = TitleOutcome.failure ∨
      ∀ t, titleOut = TitleOutcome.success t → titleAccepted t = false) :
    titleStep true cid titleOut l = l := by
  cases titleOut with
  | failure => rfl
  | success t =>
    rcases h with h | h
    · cases h
    · have := h t rfl
      simp [titleStep, this]

/-! Claim theorems. -/

/-- C1: the Classifier assigns exactly one outcome to every
StructuredResult by strict first-match precedence — isNotFound wins over
everything, then isOutOfScope, then a present non-empty clarification
(which renders only the clarification text), and otherwise the outcome is
ANSWER, whose rendering is the total function `renderAnswerBlocks` showing
exactly the fields that are present (so an ANSWER with no summary still
renders without crashing). -/
theorem classifier_precedence (r : StructuredResponse) :
    (truthyFlag r.isNotFound = true → classify r = Outcome.NOT_FOUND)
  ∧ (truthyFlag r.isNotFound = false → truthyFlag r.isOutOfScope = true →
      classify r = Outcome.OUT_OF_SCOPE)
  ∧ (truthyFlag r.isNotFound = false → truthyFlag r.isOutOfScope = false →
      truthyText r.clarification = true →
      classify r = Outcome.CLARIFICATION ∧
      renderStructured r = [RenderPiece.textP (r.clarification.getD "")])
  ∧ (truthyFlag r.isNotFound = false → truthyFlag r.isOutOfScope = false →
      truthyText r.clarification = false →
      classify r = Outcome.ANSWER ∧
      renderStructured r = renderAnswerBlocks r) := by
  refine ⟨fun h1 => by simp [classify, h1],
    fun h1 h2 => by simp [classify, h1, h2],
    fun h1 h2 h3 => ⟨by simp [classify, h1, h2, h3],
      by simp [renderStructured, h1, h2, h3]⟩,
    fun h1 h2 h3 => ⟨by simp [classify, h1, h2, h3],
      by simp [renderStructured, h1, h2, h3]⟩⟩

/-- Witness for C1: with isNotFound true and every other field populated,
the outcome is NOT_FOUND. -/
theorem classifier_precedence_witness :
    classify exAllPopulated = Outcome.NOT_FOUND :=
  (classifier_precedence exAllPopulated).1 rfl

/-- C3: the retriever surfaces a non-OK search status as a thrown error
(hard failure); zero search hits (or a missing hit list) succeed with the
empty document collection "[]"; per-hit detail fetches that fail are
dropped, and if every detail fetch fails the result is "[]", the same as a
search miss. -/
theorem retriever_failure_semantics :
    (∀ (status : Nat) (detail : String → HttpResult SliteNoteDetails),
      fetchSopsFromSlite (HttpResult.notOk status) detail =
        Except.error "Failed to search for notes on Slite API.")
  ∧ (∀ detail, fetchSopsFromSlite (HttpResult.ok none) detail = Except.ok "[]")
  ∧ (∀ detail, fetchSopsFromSlite (HttpResult.ok (some [])) detail = Except.ok "[]")
  ∧ (∀ (hits : List SliteNoteSearchResult) detail,
      (∀ h ∈ hits, ∀ d, detail h.id ≠ HttpResult.ok d) →
      fetchSopsFromSlite (HttpResult.ok (some hits)) detail = Except.ok "[]")
  ∧ (∀ (hits : List SliteNoteSearchResult) detail, hits ≠ [] →
      fetchSopsFromSlite (HttpResult.ok (some hits)) detail =
        Except.ok (jsonStringifySops
          ((retainedDetails hits detail).map formatNote))) := by
  refine ⟨fun status detail => rfl, fun detail => rfl, fun detail => rfl,
    ?_, ?_⟩
  · intro hits detail hall
    cases hits with
    | nil => rfl
    | cons a t =>
      have hnil : retainedDetails (a :: t) detail = [] := by
        apply List.filterMap_eq_nil_iff.mpr
        intro h hm
        cases hd : detail h.id with
        | ok d => exact absurd hd (hall h hm d)
        | notOk status => rfl
      show Except.ok (jsonStringifySops
        ((retainedDetails (a :: t) detail).map formatNote)) = Except.ok "[]"
      rw [hnil]
      rfl
  · intro hits detail hne
    cases hits with
    | nil => exact absurd rfl hne
    | cons a t => rfl

/-- Witness for C3: a single hit whose detail fetch returns non-OK yields
the empty collection, same as a search miss. -/
theorem retriever_failure_semantics_witness :
    fetchSopsFromSlite (HttpResult.ok (some [exHit]))
      (fun _ => HttpResult.notOk 500) = Except.ok "[]" :=
  retriever_failure_semantics.2.2.2.1 [exHit] (fun _ => HttpResult.notOk 500)
    (fun _ _ _ hcontra => HttpResult.noConfusion hcontra)

/-- C9: session deletion by id is idempotent and targeted — deleting the
active session removes it and deselects; deleting a non-active session
leaves the active id unchanged; every session with the deleted id is
removed and every other session survives in order; deleting an id absent
from the session set changes nothing; and deletion is idempotent. -/
theorem delete_session_targeted_idempotent (st : AppState) (chatId : String) :
    (st.activeChatId = some chatId →
      (handleDeleteChat st chatId).activeChatId = none)
  ∧ (st.activeChatId ≠ some chatId →
      (handleDeleteChat st chatId).activeChatId = st.activeChatId)
  ∧ (∀ s ∈ (handleDeleteChat st chatId).chatSessions, s.id ≠ chatId)
  ∧ List.Sublist (handleDeleteChat st chatId).chatSessions st.chatSessions
  ∧ (∀ s ∈ st.chatSessions, s.id ≠ chatId →
      s ∈ (handleDeleteChat st chatId).chatSessions)
  ∧ ((∀ s ∈ st.chatSessions, s.id ≠ chatId) →
      (handleDeleteChat st chatId).chatSessions = st.chatSessions)
  ∧ handleDeleteChat (handleDeleteChat st chatId) chatId =
      handleDeleteChat st chatId := by
  have hsess : (st.chatSessions.filter (fun s => s.id != chatId)).filter
      (fun s => s.id != chatId) = st.chatSessions.filter (fun s => s.id != chatId) :=
    List.filter_eq_self.mpr
      (fun a ha =>
        List.of_mem_filter (p := fun (s : ChatSession) => s.id != chatId) ha)
  refine ⟨?_, ?_, ?_, ?_, ?_, ?_, ?_⟩
  · intro h
    simp [handleDeleteChat, h]
  · intro h
    have hbeq : (st.activeChatId == some chatId) = false := by
      cases hb : st.activeChatId == some chatId with
      | false => rfl
      | true => exact absurd (eq_of_beq hb) h
    simp [handleDeleteChat, hbeq]
  · intro s hs
    have := List.of_mem_filter hs
    exact bne_iff_ne.mp this
  · exact List.filter_sublist _
  · intro s hs hne
    exact List.mem_filter_of_mem hs (bne_iff_ne.mpr hne)
  · intro hall
    exact List.filter_eq_self.mpr (fun a ha => bne_iff_ne.mpr (hall a ha))
  · unfold handleDeleteChat
    by_cases h : (st.activeChatId == some chatId) = true
    · simp [h, hsess]
    · simp only [Bool.not_eq_true] at h
      simp [h, hsess]

/-- Witness for C9: deleting the active session of the example state
deselects it. -/
theorem delete_session_targeted_idempotent_witness :
    (handleDeleteChat exState "chat-1").activeChatId = none :=
  (delete_session_targeted_idempotent exState "chat-1").1 rfl

/-- C10: the chat endpoint validates before contacting any external
service — a non-POST method yields 405; missing/non-array/empty messages
yield 400 with an error payload; a last message not from the user or with
non-string content yields 400 with an error payload; and every such early
response means the handler never reaches the search, detail-fetch and
model-call stage (the `proceed` action). -/
theorem handler_validates_before_external_calls (method : String)
    (messages : Option (List Message)) (keysConfigured : Bool) :
    (method ≠ "POST" →
      handlerValidate method messages keysConfigured =
        HandlerAction.respond 405 "Method Not Allowed")
  ∧ (method = "POST" → (messages = none ∨ messages = some []) →
      handlerValidate method messages keysConfigured =
        HandlerAction.respond 400
          "Messages are required and must be a non-empty array.")
  ∧ (∀ (msgs : List Message) (last : Message), method = "POST" →
      messages = some msgs → msgs.getLast? = some last →
      (last.sender ≠ Sender.user ∨ ∀ s, last.content ≠ Content.text s) →
      handlerValidate method messages keysConfigured =
        HandlerAction.respond 400 "The last message must be from the user.")
  ∧ (∀ (status : Nat) (errMsg : String) (q : String),
      handlerValidate method messages keysConfigured =
        HandlerAction.respond status errMsg →
      handlerValidate method messages keysConfigured ≠
        HandlerAction.proceed q) := by
  refine ⟨?_, ?_, ?_, ?_⟩
  · intro h
    simp [handlerValidate, h]
  · intro hm hbad
    subst hm
    rcases hbad with h | h <;> subst h <;> simp [handlerValidate]
  · intro msgs last hm hmsgs hlast hbad
    subst hm
    subst hmsgs
    have hne : msgs ≠ [] := by
      intro hnil
      rw [hnil] at hlast
      cases hlast
    have hempty : msgs.isEmpty = false := by
      cases msgs with
      | nil => exact absurd rfl hne
      | cons a t => rfl
    simp only [handlerValidate, if_neg (by simp : ¬("POST" : String) ≠ "POST"),
      hempty, Bool.false_eq_true, if_false, hlast]
    rcases hbad with h | h
    · simp [h]
    · by_cases hs : last.sender ≠ Sender.user
      · simp [hs]
      · simp only [ne_eq, Decidable.not_not] at hs
        cases hc : last.content with
        | text s => exact absurd hc (h s)
        | structured r => simp [hs, hc]
  · intro status errMsg q heq hcontra
    rw [heq] at hcontra
    cases hcontra

/-- Witness for C10: a GET request yields 405 and does not proceed to any
external call. -/
theorem handler_validates_before_external_calls_witness :
    handlerValidate "GET" (some [exUser0]) true =
      HandlerAction.respond 405 "Method Not Allowed" ∧
    handlerValidate "GET" (some [exUser0]) true ≠
      HandlerAction.proceed "hello" :=
  ⟨(handler_validates_before_external_calls "GET" (some [exUser0]) true).1
      (by decide),
   (handler_validates_before_external_calls "GET" (some [exUser0]) true).2.2.2
      405 "Method Not Allowed" "hello"
      ((handler_validates_before_external_calls "GET" (some [exUser0]) true).1
        (by decide))⟩

/-- C2: the history sent to the answer endpoint (`messagesForApi`, built
from the pre-update snapshot) equals the active session's message list
immediately after part 1 appends the turn's user message, in order and
unmodified; for a turn that creates a new session it is exactly the one
new user message, which is also the new session's whole message list. -/
theorem answer_history_matches_post_append (st : AppState) (u : Message)
    (newChatId messageText : String) :
    (st.activeChatId = none →
      messagesForApi st u = [u] ∧
      findById (part1 st u newChatId messageText).1.chatSessions newChatId =
        some { id := newChatId, title := fallbackTitleOf messageText,
               messages := [u] })
  ∧ (∀ (cid : String) (s : ChatSession), st.activeChatId = some cid →
      cid.isEmpty = false → findById st.chatSessions cid = some s →
      messagesForApi st u = s.messages ++ [u] ∧
      findById (part1 st u newChatId messageText).1.chatSessions cid =
        some { s with messages := s.messages ++ [u] }) := by
  constructor
  · intro h
    constructor
    · simp [messagesForApi, currentActiveSession, h]
    · unfold part1
      rw [h]
      simp [isFalsyId, findById]
  · intro cid s hc hne hf
    constructor
    · simp [messagesForApi, currentActiveSession, hc, hf]
    · unfold part1
      rw [hc]
      have hfal : isFalsyId (some cid) = false := hne
      simp only [hfal, Bool.false_eq_true, if_false, Option.getD]
      rw [findById_updateById_self cid
        (fun s => { s with messages := s.messages ++ [u] })
        (fun s => rfl) st.chatSessions, hf]
      rfl

/-- Witness for C2: on the example state with an active one-message
session, the history sent is that message plus the new user message, and
it equals the session's messages right after the synchronous append. -/
theorem answer_history_matches_post_append_witness :
    messagesForApi exState exUser1 = exSession.messages ++ [exUser1] ∧
    findById (part1 exState exUser1 "chat-2" "How do I handle a lead?").1.chatSessions
        "chat-1" =
      some { exSession with messages := exSession.messages ++ [exUser1] } :=
  (answer_history_matches_post_append exState exUser1 "chat-2"
      "How do I handle a lead?").2 "chat-1" exSession rfl rfl (by decide)

/-- C7 (amended): submitting with no session selected synchronously (in
part 1, before any network call) creates exactly one new session — the
session list becomes the new session prepended to the old list, so it
grows by one — selects it, sets its messages to exactly the one user
message, and sets its title to the fallback built by splitting the message
text on single space characters and joining the first five tokens. -/
theorem new_session_created_synchronously (st : AppState) (u : Message)
    (newChatId messageText : String) (h : st.activeChatId = none) :
    (part1 st u newChatId messageText).1.chatSessions =
      { id := newChatId, title := fallbackTitleOf messageText,
        messages := [u] } :: st.chatSessions
  ∧ (part1 st u newChatId messageText).1.activeChatId = some newChatId
  ∧ (part1 st u newChatId messageText).1.chatSessions.length =
      st.chatSessions.length + 1
  ∧ (part1 st u newChatId messageText).2.2 = true := by
  unfold part1
  rw [h]
  simp [isFalsyId]

/-- Witness for C7: creating a new chat from the empty state. -/
theorem new_session_created_synchronously_witness :
    (part1 exEmptyState exUser1 "chat-1" "How do I handle a lead?").1.chatSessions =
      [{ id := "chat-1", title := fallbackTitleOf "How do I handle a lead?",
         messages := [exUser1] }]
  ∧ (part1 exEmptyState exUser1 "chat-1" "How do I handle a lead?").1.activeChatId =
      some "chat-1"
  ∧ (part1 exEmptyState exUser1 "chat-1" "How do I handle a lead?").1.chatSessions.length =
      exEmptyState.chatSessions.length + 1
  ∧ (part1 exEmptyState exUser1 "chat-1" "How do I handle a lead?").2.2 = true :=
  new_session_created_synchronously exEmptyState exUser1 "chat-1"
    "How do I handle a lead?" rfl

/-- Counterexample for C7 as stated: for the message text "a  b c d e f"
(double space after "a"), the code's fallback title keeps the empty token
and drops the fifth word, so it is not the title formed from the first
five whitespace-separated words. -/
theorem new_session_fallback_title_counterexample :
    (part1 exEmptyState exUser2 "chat-1" "a  b c d e f").1.chatSessions.head?.map
        ChatSession.title = some "a  b c d"
  ∧ specFallbackTitle "a  b c d e f" = "a b c d e"
  ∧ (part1 exEmptyState exUser2 "chat-1" "a  b c d e f").1.chatSessions.head?.map
        ChatSession.title ≠ some (specFallbackTitle "a  b c d e f") := by
  refine ⟨by decide, by decide, by decide⟩

/-- C4: for every turn whose answer request fails (non-OK status or thrown
error), exactly one assistant message carrying the fixed apology summary
is appended to the session whose id was captured at turn start — its final
message list is the post-append list plus the single apology message — and
the busy flag is false after every turn, success or failure. -/
theorem failed_turn_appends_apology_and_clears_busy (st : AppState)
    (messageText msgId newChatId asstId : String)
    (titleOut : TitleOutcome) (apiOut : ApiOutcome)
    (hfail : apiOut = ApiOutcome.httpError ∨ apiOut = ApiOutcome.thrown) :
    (∀ (anyTitle : TitleOutcome) (anyApi : ApiOutcome),
      (handleSendMessage st messageText msgId newChatId asstId
        anyTitle anyApi).isLoading = false)
  ∧ (st.activeChatId = none →
      (findById (handleSendMessage st messageText msgId newChatId asstId
          titleOut apiOut).chatSessions newChatId).map ChatSession.messages =
        some [userMessageOf msgId messageText, apologyMessage asstId])
  ∧ (∀ (cid : String) (s : ChatSession), st.activeChatId = some cid →
      cid.isEmpty = false → findById st.chatSessions cid = some s →
      (findById (handleSendMessage st messageText msgId newChatId asstId
          titleOut apiOut).chatSessions cid).map ChatSession.messages =
        some (s.messages ++
          [userMessageOf msgId messageText, apologyMessage asstId])) := by
  refine ⟨fun _ _ => rfl, ?_, ?_⟩
  · intro h
    have hp : part1 st (userMessageOf msgId messageText) newChatId messageText =
        (⟨⟨newChatId, fallbackTitleOf messageText,
            [userMessageOf msgId messageText]⟩ :: st.chatSessions,
          some newChatId, st.isLoading⟩, newChatId, true) := by
      unfold part1
      rw [h]
      rfl
    simp only [handleSendMessage, hp]
    rw [findById_answerStep_messages_fail newChatId asstId apiOut hfail,
      findById_titleStep_messages]
    simp [findById]
  · intro cid s hc hne hf
    have hp : part1 st (userMessageOf msgId messageText) newChatId messageText =
        (⟨updateById cid
            (fun s => { s with messages := s.messages ++
              [userMessageOf msgId messageText] }) st.chatSessions,
          st.activeChatId, st.isLoading⟩, cid, false) := by
      unfold part1
      rw [hc]
      have hfal : isFalsyId (some cid) = false := hne
      rw [hfal]
      rfl
    simp only [handleSendMessage, hp]
    rw [findById_answerStep_messages_fail cid asstId apiOut hfail,
      findById_titleStep_messages]
    rw [findById_updateById_self cid
      (fun s => { s with messages := s.messages ++
        [userMessageOf msgId messageText] })
      (fun s => rfl) st.chatSessions, hf]
    simp

/-- Witness for C4: a thrown answer call on the example state appends the
single apology message and ends with the busy flag cleared. -/
theorem failed_turn_appends_apology_and_clears_busy_witness :
    (handleSendMessage exState "hi" "m2" "chat-2" "m3" TitleOutcome.failure
      ApiOutcome.thrown).isLoading = false ∧
    (findById (handleSendMessage exState "hi" "m2" "chat-2" "m3"
        TitleOutcome.failure ApiOutcome.thrown).chatSessions
        "chat-1").map ChatSession.messages =
      some (exSession.messages ++
        [userMessageOf "m2" "hi", apologyMessage "m3"]) :=
  ⟨(failed_turn_appends_apology_and_clears_busy exState "hi" "m2" "chat-2"
      "m3" TitleOutcome.failure ApiOutcome.thrown (Or.inr rfl)).1
      TitleOutcome.failure ApiOutcome.thrown,
   (failed_turn_appends_apology_and_clears_busy exState "hi" "m2" "chat-2"
      "m3" TitleOutcome.failure ApiOutcome.thrown (Or.inr rfl)).2.2
      "chat-1" exSession rfl rfl (by decide)⟩

/-- A structured assistant response holding only a clarification. -/
def exClarification : StructuredResponse :=
  { clarification := some "Which lead source do you mean?" }

/-- An assistant message holding the clarification-only response. -/
def exAsstMsg : Message :=
  { id := "a1", sender := Sender.assistant,
    content := Content.structured exClarification }

/-- C5 (amended): converting history to the model's turn format maps every
message in order; a message whose content is a string becomes a turn with
that text verbatim and role 'user' for user senders and 'model' otherwise;
and every message with structured content becomes a model turn whose text
is the JSON serialization of the full structured result — the clarification
text is never substituted for the serialization. -/
theorem history_turn_conversion (messages : List Message) :
    geminiContents messages = messages.map toGeminiTurn
  ∧ (∀ (m : Message) (s : String), m.content = Content.text s →
      (toGeminiTurn m).text = s ∧
      (toGeminiTurn m).role =
        (if m.sender = Sender.user then "user" else "model"))
  ∧ (∀ (m : Message) (r : StructuredResponse), m.sender = Sender.assistant →
      m.content = Content.structured r →
      (toGeminiTurn m).role = "model" ∧
      (toGeminiTurn m).text = stringifyStructured r) := by
  refine ⟨rfl, ?_, ?_⟩
  · intro m s hc
    exact ⟨by simp [toGeminiTurn, geminiTextOfContent, hc], rfl⟩
  · intro m r hs hc
    constructor
    · simp [toGeminiTurn, hs]
    · simp [toGeminiTurn, geminiTextOfContent, hc]

/-- Witness for C5: the assistant clarification message becomes a model
turn carrying the JSON serialization of the full structured result. -/
theorem history_turn_conversion_witness :
    (toGeminiTurn exAsstMsg).role = "model" ∧
    (toGeminiTurn exAsstMsg).text = stringifyStructured exClarification :=
  (history_turn_conversion [exAsstMsg]).2.2 exAsstMsg exClarification rfl rfl

/-- Counterexample for C5 as stated: for an assistant message whose
structured content has a clarification, the code serializes the full
structured result, so the turn text is not the bare clarification text the
claim describes. -/
theorem history_turn_conversion_counterexample :
    specTurnText exAsstMsg.content = "Which lead source do you mean?"
  ∧ (toGeminiTurn exAsstMsg).text =
      stringifyStructured exClarification
  ∧ (toGeminiTurn exAsstMsg).text ≠ specTurnText exAsstMsg.content :=
  ⟨rfl, rfl, by decide⟩

/-- C6: within one turn, every previously existing session survives with
the same id and its earlier messages preserved in order as a prefix — the
message sequence only grows by appending at the end — and deletion removes
whole sessions only, never touching the messages of the sessions that
remain. -/
theorem session_messages_append_only (st : AppState)
    (messageText msgId newChatId asstId : String)
    (titleOut : TitleOutcome) (apiOut : ApiOutcome) :
    MessagesExtended st.chatSessions
      (handleSendMessage st messageText msgId newChatId asstId
        titleOut apiOut).chatSessions
  ∧ (∀ (chatId : String) (s : ChatSession),
      s ∈ (handleDeleteChat st chatId).chatSessions → s ∈ st.chatSessions) := by
  constructor
  · exact messagesExtended_trans
      (messagesExtended_trans
        (messagesExtended_part1 st (userMessageOf msgId messageText)
          newChatId messageText)
        (messagesExtended_titleStep _ _ titleOut _))
      (messagesExtended_answerStep _ asstId apiOut _)
  · intro chatId s hs
    exact List.mem_of_mem_filter hs

/-- Witness for C6: the pre-existing session of the example state survives
a failing turn with its original message as a prefix. -/
theorem session_messages_append_only_witness :
    ∃ s', s' ∈ (handleSendMessage exState "hi" "m2" "chat-2" "m3"
        TitleOutcome.failure ApiOutcome.thrown).chatSessions ∧
      s'.id = exSession.id ∧ exSession.messages <+: s'.messages :=
  (session_messages_append_only exState "hi" "m2" "chat-2" "m3"
      TitleOutcome.failure ApiOutcome.thrown).1 exSession (by decide)

/-- C8: title refinement on a new-session turn is strictly best-effort —
for every title outcome the answer flow still appends its message to the
new session (so a title failure never fails the answer flow, and the final
message list is independent of the title outcome); a success whose title
passes the non-blank acceptance check overwrites the title in place while
leaving the messages untouched; a failure or a rejected title leaves the
fallback title; and every non-empty title actually produced by the
generate-title endpoint (which trims) passes the acceptance check. -/
theorem title_refinement_best_effort (st : AppState)
    (messageText msgId newChatId asstId : String) (apiOut : ApiOutcome)
    (h : st.activeChatId = none) :
    (∀ titleOut : TitleOutcome,
      (findById (handleSendMessage st messageText msgId newChatId asstId
          titleOut apiOut).chatSessions newChatId).map ChatSession.messages =
        some [userMessageOf msgId messageText, answerMessageOf apiOut asstId])
  ∧ (∀ t : Option String, titleAccepted t = true →
      (findById (handleSendMessage st messageText msgId newChatId asstId
          (TitleOutcome.success t) apiOut).chatSessions newChatId).map
          ChatSession.title = some (t.getD ""))
  ∧ (∀ titleOut : TitleOutcome,
      (titleOut = TitleOutcome.failure ∨
        ∀ t, titleOut = TitleOutcome.success t → titleAccepted t = false) →
      (findById (handleSendMessage st messageText msgId newChatId asstId
          titleOut apiOut).chatSessions newChatId).map ChatSession.title =
        some (fallbackTitleOf messageText))
  ∧ (∀ raw : Option String, (generateTitlePayload raw).isEmpty = false →
      titleAccepted (some (generateTitlePayload raw)) = true) := by
  have hp : part1 st (userMessageOf msgId messageText) newChatId messageText =
      (⟨⟨newChatId, fallbackTitleOf messageText,
          [userMessageOf msgId messageText]⟩ :: st.chatSessions,
        some newChatId, st.isLoading⟩, newChatId, true) := by
    unfold part1
    rw [h]
    rfl
  refine ⟨?_, ?_, ?_, ?_⟩
  · intro titleOut
    simp only [handleSendMessage, hp]
    rw [findById_answerStep_messages, findById_titleStep_messages]
    simp [findById]
  · intro t ht
    simp only [handleSendMessage, hp]
    rw [findById_answerStep_title,
      findById_titleStep_title_accepted newChatId t _ ht]
    simp [findById]
  · intro titleOut hno
    simp only [handleSendMessage, hp]
    rw [findById_answerStep_title, titleStep_no_update newChatId titleOut _ hno]
    simp [findById]
  · intro raw hne
    unfold generateTitlePayload at hne ⊢
    show (!(jsTrim (raw.getD "New Chat")).isEmpty &&
      !(jsTrim (jsTrim (raw.getD "New Chat"))).isEmpty) = true
    rw [jsTrim_idem, hne]
    rfl

/-- Witness for C8: on a fresh turn, an accepted refined title overwrites
the fallback while the answer message list is unaffected, and the trimmed
endpoint title "Lead Help" passes acceptance. -/
theorem title_refinement_best_effort_witness :
    (findById (handleSendMessage exEmptyState "How do I handle a lead?" "m2"
        "chat-1" "m3" (TitleOutcome.success (some "Lead Help"))
        ApiOutcome.thrown).chatSessions "chat-1").map ChatSession.title =
      some "Lead Help"
  ∧ (findById (handleSendMessage exEmptyState "How do I handle a lead?" "m2"
        "chat-1" "m3" (TitleOutcome.success (some "Lead Help"))
        ApiOutcome.thrown).chatSessions "chat-1").map ChatSession.messages =
      some [userMessageOf "m2" "How do I handle a lead?",
        answerMessageOf ApiOutcome.thrown "m3"]
  ∧ titleAccepted (some (generateTitlePayload (some "Lead Help"))) = true :=
  ⟨(title_refinement_best_effort exEmptyState "How do I handle a lead?" "m2"
      "chat-1" "m3" ApiOutcome.thrown rfl).2.1 (some "Lead Help") (by decide),
   (title_refinement_best_effort exEmptyState "How do I handle a lead?" "m2"
      "chat-1" "m3" ApiOutcome.thrown rfl).1
      (TitleOutcome.success (some "Lead Help")),
   (title_refinement_best_effort exEmptyState "How do I handle a lead?" "m2"
      "chat-1" "m3" ApiOutcome.thrown rfl).2.2.2 (some "Lead Help") (by decide)⟩

end SJGSOP
